import Mathlib

/-!
Shallow embedding of src/src/client/components/TodoList.tsx.

The component manages a todo list UI. A todo has a numeric id, a text
body and a status ("pending" or "completed"). The component keeps two
pieces of client state (the active filter tab and the list of statuses
passed to the getAll query), issues two remote mutations (update a
status, delete a todo), and refetches the getAll query when either
mutation succeeds. Event handlers are embedded as pure functions that
return the new client state and the list of remote calls they issue.
-/

/-- The two todo statuses (TodoList.tsx, lines 9 and 72). -/
inductive Status where
  | pending
  | completed
deriving DecidableEq

/-- The tab type (TodoList.tsx, line 65): `type Tab = "completed" | "pending" | "all"`. -/
inductive Tab where
  | completed
  | pending
  | all
deriving DecidableEq

/-- The tab list (TodoList.tsx, line 66): `const tabs: Tab[] = ["all", "completed", "pending"]`. -/
def tabs : List Tab := [Tab.all, Tab.completed, Tab.pending]

/-- A todo record as fetched from the backend: id, body and status. -/
structure Todo where
  id : Int
  body : String
  status : Status
deriving DecidableEq

/-- A remote call issued by the component: either the
`api.todoStatus.update` mutation or the `api.todo.delete` mutation. -/
inductive RemoteCall where
  | updateStatus (todoId : Int) (status : Status)
  | delete (id : Int)
deriving DecidableEq

/-- An effect run by a mutation callback; the only one the component
uses is refetching the getAll query. -/
inductive Effect where
  | refetchGetAll
deriving DecidableEq

/-- Configuration passed to useMutation: the effects run on success. -/
structure MutationConfig where
  onSuccess : List Effect
deriving DecidableEq

/-- The update-status mutation (TodoList.tsx, lines 75-77):
`api.todoStatus.update.useMutation({ onSuccess: () => refetchGetAll() })`. -/
def updateStatusMutation : MutationConfig := { onSuccess := [Effect.refetchGetAll] }

/-- The delete mutation (TodoList.tsx, lines 87-89):
`api.todo.delete.useMutation({ onSuccess: () => refetchGetAll() })`. -/
def deleteTodoMutation : MutationConfig := { onSuccess := [Effect.refetchGetAll] }

/-- TodoList.tsx, lines 78-80: `handleUpdateStatus` calls the
update-status mutation with `{ todoId: id, status }`. -/
def handleUpdateStatus (id : Int) (status : Status) : List RemoteCall :=
  [RemoteCall.updateStatus id status]

/-- TodoList.tsx, lines 82-85: `handleToggleTodoStatus` looks the id up
in the fetched todos, defaults a missing status to "pending", and sends
the opposite status. -/
def handleToggleTodoStatus (todos : List Todo) (id : Int) : List RemoteCall :=
  let currentStatus := ((todos.find? (fun todo => todo.id == id)).map Todo.status).getD Status.pending
  handleUpdateStatus id (if currentStatus = Status.pending then Status.completed else Status.pending)

/-- The status mapping applied on TodoList.tsx, line 84:
`currentStatus === "pending" ? "completed" : "pending"`. -/
def toggleStatus (status : Status) : Status :=
  if status = Status.pending then Status.completed else Status.pending

/-- TodoList.tsx, lines 91-93: `handleDeleteTodo` calls the delete
mutation with `{ id }`. -/
def handleDeleteTodo (id : Int) : List RemoteCall :=
  [RemoteCall.delete id]

/-- The client state of the TodoList component (TodoList.tsx, lines
71-72): the active tab and the status list passed to the query. -/
structure FilterState where
  activeTab : Tab
  listStatus : List Status
deriving DecidableEq

/-- The initial client state (TodoList.tsx, lines 71-72):
`useState<Tab>("all")` and `useState([..])` with `["completed", "pending"]`. -/
def initialFilterState : FilterState :=
  { activeTab := Tab.all, listStatus := [Status.completed, Status.pending] }

/-- TodoList.tsx, lines 95-98: `handleClickTab` sets the active tab to
`type` and the query status list to `["completed", "pending"]` when
`type` is "all" and to `[type]` otherwise; it issues no remote call. -/
def handleClickTab (type : Tab) (s : FilterState) : FilterState × List RemoteCall :=
  ({ activeTab := type,
     listStatus :=
       match type with
       | Tab.all => [Status.completed, Status.pending]
       | Tab.completed => [Status.completed]
       | Tab.pending => [Status.pending] },
   [])

/-- Modelled from the spec: the backend query `api.todo.getAll`
(declared in src/server/api/routers/todo-router.ts, which is not in the
repository snapshot) fetches the list of todos filtered by status: it
returns the todos whose status is in the `statuses` argument. -/
def getAll (db : List Todo) (statuses : List Status) : List Todo :=
  db.filter (fun todo => statuses.contains todo.status)

/-- The argument the component passes to the getAll query
(TodoList.tsx, line 73): `useQuery({ statuses: listStatus })`. -/
def getAllQueryArgs (s : FilterState) : List Status :=
  s.listStatus

/-- The todos the component receives from the getAll query, given the
backend database `db` and the client state `s`. -/
def fetchedTodos (db : List Todo) (s : FilterState) : List Todo :=
  getAll db (getAllQueryArgs s)

/-- The todo record handed to TodoItem (TodoList.tsx, lines 105-108):
the fetched todo together with `completed: todo.status === "completed"`. -/
structure FormatTodo where
  id : Int
  body : String
  status : Status
  completed : Bool
deriving DecidableEq

/-- TodoList.tsx, lines 105-108: `formatTodo` spreads the todo and adds
the `completed` flag. -/
def formatTodo (todo : Todo) : FormatTodo :=
  { id := todo.id, body := todo.body, status := todo.status,
    completed := todo.status == Status.completed }

/-- The list the component renders (TodoList.tsx, lines 104-110): the
fetched todos, each mapped through `formatTodo`. -/
def displayedTodos (db : List Todo) (s : FilterState) : List FormatTodo :=
  (fetchedTodos db s).map formatTodo

/-- The local state of one TodoItem (TodoList.tsx, line 156):
`useState(todo.completed)`. -/
structure ItemState where
  isChecked : Bool
deriving DecidableEq

/-- The initial TodoItem state (TodoList.tsx, line 156). -/
def initialItemState (todo : FormatTodo) : ItemState :=
  { isChecked := todo.completed }

/-- TodoList.tsx, lines 158-161: `handleCheckboxClick` sets the local
checked state to its negation and calls `handleToggleTodoStatus` with
the item id. -/
def handleCheckboxClick (todos : List Todo) (todo : FormatTodo) (s : ItemState) :
    ItemState × List RemoteCall :=
  ({ isChecked := !s.isChecked }, handleToggleTodoStatus todos todo.id)

/-- TodoList.tsx, line 176: the label gets the line-through class
exactly when `isChecked` holds. -/
def itemLineThrough (s : ItemState) : Bool :=
  s.isChecked

/-- TodoList.tsx, line 167: the checkbox `checked` prop is `isChecked`. -/
def itemCheckboxChecked (s : ItemState) : Bool :=
  s.isChecked

/-- The invariant of claim C9 on the client filter state: the status
list is a non-empty subset of the two statuses, it equals
`[completed, pending]` exactly when the active tab is "all", and it is
the singleton of the active tab otherwise. -/
def filterInvariant (s : FilterState) : Prop :=
  s.listStatus ≠ [] ∧
  (∀ st ∈ s.listStatus, st = Status.completed ∨ st = Status.pending) ∧
  (s.listStatus = [Status.completed, Status.pending] ↔ s.activeTab = Tab.all) ∧
  (s.activeTab = Tab.completed → s.listStatus = [Status.completed]) ∧
  (s.activeTab = Tab.pending → s.listStatus = [Status.pending])

instance : DecidablePred filterInvariant := by
  intro s
  unfold filterInvariant
  infer_instance

/-- Claim C1: for an id present in the fetched todos list (so that the
lookup finds a todo `t`), `handleToggleTodoStatus` issues the
update-status call with the opposite status of `t`, and the
update-status mutation refetches the getAll query on success. -/
theorem toggle_sends_opposite_status (todos : List Todo) (id : Int) (t : Todo)
    (h : todos.find? (fun todo => todo.id == id) = some t) :
    handleToggleTodoStatus todos id =
      [RemoteCall.updateStatus id
        (match t.status with
         | Status.pending => Status.completed
         | Status.completed => Status.pending)] ∧
    updateStatusMutation.onSuccess = [Effect.refetchGetAll] := by
  refine ⟨?_, rfl⟩
  cases hs : t.status <;>
    simp [handleToggleTodoStatus, handleUpdateStatus, h, hs]

/-- Witness for claim C1 at a concrete input. -/
theorem toggle_sends_opposite_status_witness :
    handleToggleTodoStatus [{ id := 1, body := "walk", status := Status.completed }] 1 =
      [RemoteCall.updateStatus 1 Status.pending] ∧
    updateStatusMutation.onSuccess = [Effect.refetchGetAll] :=
  toggle_sends_opposite_status
    [{ id := 1, body := "walk", status := Status.completed }] 1
    { id := 1, body := "walk", status := Status.completed } (by decide)

/-- Claim C2: for every tab value, `handleClickTab` sets the active tab
to that value, sets the query status list to `[completed, pending]` for
the "all" tab and to the corresponding singleton otherwise, and issues
no remote call. -/
theorem clickTab_sets_state_no_mutation (type : Tab) (s : FilterState) :
    (handleClickTab type s).1.activeTab = type ∧
    (handleClickTab type s).1.listStatus =
      (match type with
       | Tab.all => [Status.completed, Status.pending]
       | Tab.completed => [Status.completed]
       | Tab.pending => [Status.pending]) ∧
    (handleClickTab type s).2 = [] := by
  cases type <;> exact ⟨rfl, rfl, rfl⟩

/-- Claim C3: both mutations refetch the getAll query on success
(each onSuccess runs exactly that one effect), and the displayed list
is purely the fetched list mapped through `formatTodo`, with no other
synchronization. -/
theorem mutations_refetch_on_success :
    updateStatusMutation.onSuccess = [Effect.refetchGetAll] ∧
    deleteTodoMutation.onSuccess = [Effect.refetchGetAll] ∧
    ∀ (db : List Todo) (s : FilterState),
      displayedTodos db s = (fetchedTodos db s).map formatTodo :=
  ⟨rfl, rfl, fun _ _ => rfl⟩

/-- Claim C4: for every id, `handleDeleteTodo` issues the delete call
with exactly that id, and the delete mutation refetches the getAll
query on success. -/
theorem delete_sends_id_and_refetches (id : Int) :
    handleDeleteTodo id = [RemoteCall.delete id] ∧
    deleteTodoMutation.onSuccess = [Effect.refetchGetAll] :=
  ⟨rfl, rfl⟩

/-- Claim C5: the getAll query is invoked with the current status list
as its statuses argument, and the fetched todos are exactly the
database todos whose status is in that list. -/
theorem getAll_filters_by_status :
    (∀ s : FilterState, getAllQueryArgs s = s.listStatus) ∧
    ∀ (db : List Todo) (s : FilterState) (todo : Todo),
      todo ∈ fetchedTodos db s ↔ todo ∈ db ∧ todo.status ∈ s.listStatus := by
  refine ⟨fun _ => rfl, fun db s todo => ?_⟩
  simp [fetchedTodos, getAll, getAllQueryArgs]

/-- Counterexample for claim C6: the tab list is not rendered in the
order all, pending, completed. -/
theorem tabs_not_all_pending_completed :
    tabs ≠ [Tab.all, Tab.pending, Tab.completed] := by
  decide

/-- Claim C6 (amended): the status-tab filter offers exactly the three
choices, rendered in the order all, completed, pending; clicking "all"
selects both statuses, clicking "pending" selects only pending and
clicking "completed" selects only completed, and a fetched todo under a
singleton selection has exactly that status. -/
theorem tabs_choices_and_selection :
    tabs = [Tab.all, Tab.completed, Tab.pending] ∧
    (∀ s : FilterState,
      (handleClickTab Tab.all s).1.listStatus = [Status.completed, Status.pending] ∧
      (handleClickTab Tab.pending s).1.listStatus = [Status.pending] ∧
      (handleClickTab Tab.completed s).1.listStatus = [Status.completed]) ∧
    ∀ (db : List Todo) (st : Status) (todo : Todo),
      todo ∈ getAll db [st] ↔ todo ∈ db ∧ todo.status = st := by
  refine ⟨rfl, fun _ => ⟨rfl, rfl, rfl⟩, fun db st todo => ?_⟩
  simp [getAll]

/-- Claim C7: clicking the checkbox inverts the local checked state
(which drives both the checked rendering and the line-through
rendering); the new state is a pure function of the previous state,
independent of the outcome of the update-status call the click also
issues. -/
theorem checkbox_click_is_optimistic (todos : List Todo) (todo : FormatTodo) (s : ItemState) :
    (handleCheckboxClick todos todo s).1.isChecked = !s.isChecked ∧
    itemCheckboxChecked (handleCheckboxClick todos todo s).1 = !s.isChecked ∧
    itemLineThrough (handleCheckboxClick todos todo s).1 = !s.isChecked ∧
    (handleCheckboxClick todos todo s).2 = handleToggleTodoStatus todos todo.id :=
  ⟨rfl, rfl, rfl, rfl⟩

/-- Claim C8: for an id that occurs nowhere in the fetched todos list,
`handleToggleTodoStatus` falls back to "pending" as the current status
and therefore sends "completed" for that id. -/
theorem toggle_absent_id_sends_completed (todos : List Todo) (id : Int)
    (h : ∀ t ∈ todos, t.id ≠ id) :
    handleToggleTodoStatus todos id = [RemoteCall.updateStatus id Status.completed] := by
  have hf : todos.find? (fun todo => todo.id == id) = none := by
    rw [List.find?_eq_none]
    intro t ht
    simpa using h t ht
  simp [handleToggleTodoStatus, handleUpdateStatus, hf]

/-- Witness for claim C8 at a concrete input. -/
theorem toggle_absent_id_sends_completed_witness :
    handleToggleTodoStatus [{ id := 1, body := "walk", status := Status.completed }] 2 =
      [RemoteCall.updateStatus 2 Status.completed] :=
  toggle_absent_id_sends_completed
    [{ id := 1, body := "walk", status := Status.completed }] 2 (by decide)

/-- Claim C9: the filter invariant holds of the initial client state
and is preserved by every `handleClickTab` call. -/
theorem clickTab_preserves_filterInvariant :
    filterInvariant initialFilterState ∧
    ∀ (type : Tab) (s : FilterState),
      filterInvariant s → filterInvariant (handleClickTab type s).1 := by
  refine ⟨by decide, fun type s _ => ?_⟩
  cases type
  · show filterInvariant { activeTab := Tab.completed, listStatus := [Status.completed] }
    decide
  · show filterInvariant { activeTab := Tab.pending, listStatus := [Status.pending] }
    decide
  · show filterInvariant { activeTab := Tab.all, listStatus := [Status.completed, Status.pending] }
    decide

/-- Witness for claim C9 at a concrete input. -/
theorem clickTab_preserves_filterInvariant_witness :
    filterInvariant (handleClickTab Tab.completed initialFilterState).1 :=
  clickTab_preserves_filterInvariant.2 Tab.completed initialFilterState (by decide)

/-- Claim C10: the status mapping of `handleToggleTodoStatus` is an
involution on the statuses, and `handleToggleTodoStatus` indeed sends
`toggleStatus` of the looked-up status. -/
theorem toggleStatus_involution :
    (∀ st : Status, toggleStatus (toggleStatus st) = st) ∧
    ∀ (todos : List Todo) (id : Int),
      handleToggleTodoStatus todos id =
        handleUpdateStatus id
          (toggleStatus
            (((todos.find? (fun todo => todo.id == id)).map Todo.status).getD Status.pending)) := by
  refine ⟨fun st => by cases st <;> rfl, fun todos id => rfl⟩
